import Mathlib

/-!
Verification development for the map-poster generator (create_map_poster.py).

The Python program is shallowly embedded: Python strings become lists of
characters, dictionaries become association lists, the filesystem (themes
directory, cache directory) becomes an explicit finite map passed as state,
and the external network fetches become explicit `Except` valued oracles.
Floating point constants of the source (road widths, gradient fractions)
are embedded as exact rationals.
-/

/-- Python strings are modelled as lists of unicode characters. -/
abbrev PyString := List Char

/- ------------------------------------------------------------------
Road classifier: get_edge_colors_by_type / get_edge_widths_by_type
------------------------------------------------------------------- -/

/-- The value stored under the highway key of an edge data dictionary:
either a single string or a list of strings. -/
inductive TagValue where
  | str (s : PyString)
  | strs (xs : List PyString)
deriving DecidableEq

/-- Embeds the tag normalisation shared by both classifiers:
`data.get('highway', 'unclassified')` followed by
`highway = highway[0] if highway else 'unclassified'` for list values.
`none` models an edge dictionary with no highway key. -/
def normalizeHighway : Option TagValue → PyString
  | none => "unclassified".toList
  | some (TagValue.str s) => s
  | some (TagValue.strs []) => "unclassified".toList
  | some (TagValue.strs (x :: _)) => x

/-- The theme color roles that the road classifier can select.  The theme
dictionary maps each role to a concrete hex color; the classifier itself
only chooses the role. -/
inductive ColorRole where
  | road_motorway
  | road_primary
  | road_secondary
  | road_tertiary
  | road_residential
  | road_default
deriving DecidableEq

/-- The if/elif chain of get_edge_colors_by_type on a normalised tag. -/
def classifyColorStr (highway : PyString) : ColorRole :=
  if highway ∈ ["motorway".toList, "motorway_link".toList] then
    ColorRole.road_motorway
  else if highway ∈ ["trunk".toList, "trunk_link".toList, "primary".toList, "primary_link".toList] then
    ColorRole.road_primary
  else if highway ∈ ["secondary".toList, "secondary_link".toList] then
    ColorRole.road_secondary
  else if highway ∈ ["tertiary".toList, "tertiary_link".toList] then
    ColorRole.road_tertiary
  else if highway ∈ ["residential".toList, "living_street".toList, "unclassified".toList] then
    ColorRole.road_residential
  else
    ColorRole.road_default

/-- The if/elif chain of get_edge_widths_by_type on a normalised tag.
Note the source has no residential branch here: residential tags fall
through to the final else and receive 0.4. -/
def classifyWidthStr (highway : PyString) : ℚ :=
  if highway ∈ ["motorway".toList, "motorway_link".toList] then
    1.2
  else if highway ∈ ["trunk".toList, "trunk_link".toList, "primary".toList, "primary_link".toList] then
    1.0
  else if highway ∈ ["secondary".toList, "secondary_link".toList] then
    0.8
  else if highway ∈ ["tertiary".toList, "tertiary_link".toList] then
    0.6
  else
    0.4

/-- Per-edge color classification: normalisation followed by the lookup. -/
def edgeColor (t : Option TagValue) : ColorRole :=
  classifyColorStr (normalizeHighway t)

/-- Per-edge width classification: normalisation followed by the lookup. -/
def edgeWidth (t : Option TagValue) : ℚ :=
  classifyWidthStr (normalizeHighway t)

/-- get_edge_colors_by_type: one color per edge of the graph, in order.
A graph is modelled by the list of its edge highway attributes. -/
def get_edge_colors_by_type (G : List (Option TagValue)) : List ColorRole :=
  G.map edgeColor

/-- get_edge_widths_by_type: one width per edge of the graph, in order. -/
def get_edge_widths_by_type (G : List (Option TagValue)) : List ℚ :=
  G.map edgeWidth

/-- All tag strings matched by some non-default branch of the classifiers. -/
def recognizedHighwayTags : List PyString :=
  ["motorway".toList, "motorway_link".toList, "trunk".toList, "trunk_link".toList,
   "primary".toList, "primary_link".toList, "secondary".toList, "secondary_link".toList,
   "tertiary".toList, "tertiary_link".toList, "residential".toList, "living_street".toList,
   "unclassified".toList]

/- ------------------------------------------------------------------
Gradient compositor: create_gradient_fade
------------------------------------------------------------------- -/

/-- The location parameter of create_gradient_fade. -/
inductive FadeLoc where
  | bottom
  | top
deriving DecidableEq

/-- numpy.linspace(a, b, 256) at index i, as an exact rational. -/
def linspace256 (a b : ℚ) (i : Fin 256) : ℚ :=
  a + (b - a) * ((i : ℕ) : ℚ) / 255

/-- The alpha column of the my_colors array built by create_gradient_fade:
np.linspace(1, 0, 256) for a bottom fade, np.linspace(0, 1, 256) for a
top fade.  Index 0 is the bottom row of the drawn image (origin=lower). -/
def gradient_alpha : FadeLoc → Fin 256 → ℚ
  | FadeLoc.bottom => linspace256 1 0
  | FadeLoc.top => linspace256 0 1

/-- Row i of the my_colors array: RGB copied from the base color,
alpha from gradient_alpha. -/
def gradient_rgba (rgb : ℚ × ℚ × ℚ) (loc : FadeLoc) (i : Fin 256) : ℚ × ℚ × ℚ × ℚ :=
  (rgb.1, rgb.2.1, rgb.2.2, gradient_alpha loc i)

/-- The vertical extent (y_bottom, y_top) that create_gradient_fade hands
to imshow, for axis limits ylim = (ylo, yhi). -/
def fade_extent (loc : FadeLoc) (ylo yhi : ℚ) : ℚ × ℚ :=
  match loc with
  | FadeLoc.bottom => (ylo + (yhi - ylo) * 0, ylo + (yhi - ylo) * 0.25)
  | FadeLoc.top => (ylo + (yhi - ylo) * 0.75, ylo + (yhi - ylo) * 1.0)

/-- create_gradient_fade: the drawn overlay, as the pair of its 256-row
color table and its vertical extent. -/
def create_gradient_fade (rgb : ℚ × ℚ × ℚ) (loc : FadeLoc) (ylo yhi : ℚ) :
    (Fin 256 → ℚ × ℚ × ℚ × ℚ) × (ℚ × ℚ) :=
  (gradient_rgba rgb loc, fade_extent loc ylo yhi)

/- ------------------------------------------------------------------
Theme store: load_theme / MapPosterApp.save_theme
------------------------------------------------------------------- -/

/-- A parsed theme JSON object, as an insertion-ordered association list
from key to string value (every value of interest here is a string). -/
abbrev Theme := List (PyString × PyString)

/-- Lookup of a key in a theme dictionary. -/
def themeLookup : Theme → PyString → Option PyString
  | [], _ => none
  | (k0, v0) :: rest, k => if k0 = k then some v0 else themeLookup rest k

/-- Python dict assignment theme[k] = v: updates the value in place if the
key exists, otherwise appends the new pair at the end. -/
def themeSet : Theme → PyString → PyString → Theme
  | [], k, v => [(k, v)]
  | (k0, v0) :: rest, k, v =>
    if k0 = k then (k, v) :: rest else (k0, v0) :: themeSet rest k v

/-- The embedded fallback theme that load_theme returns when the backing
file is missing. -/
def default_theme : Theme :=
  [("name".toList, "Feature-Based Shading".toList),
   ("bg".toList, "#FFFFFF".toList),
   ("text".toList, "#000000".toList),
   ("gradient_color".toList, "#FFFFFF".toList),
   ("water".toList, "#C0C0C0".toList),
   ("parks".toList, "#F0F0F0".toList),
   ("road_motorway".toList, "#0A0A0A".toList),
   ("road_primary".toList, "#1A1A1A".toList),
   ("road_secondary".toList, "#2A2A2A".toList),
   ("road_tertiary".toList, "#3A3A3A".toList),
   ("road_residential".toList, "#4A4A4A".toList),
   ("road_default".toList, "#3A3A3A".toList)]

/-- The color roles a theme must provide for rendering. -/
def requiredColorRoles : List PyString :=
  ["bg".toList, "text".toList, "gradient_color".toList, "water".toList, "parks".toList,
   "road_motorway".toList, "road_primary".toList, "road_secondary".toList,
   "road_tertiary".toList, "road_residential".toList, "road_default".toList]

/-- The path of the backing file of a theme: os.path.join(THEMES_DIR, name + ".json"). -/
def theme_file (theme_name : PyString) : PyString :=
  "themes/".toList ++ theme_name ++ ".json".toList

/-- load_theme over an explicit theme directory: the store maps a file
path to the parsed theme when the file exists.  The boolean records
whether the missing-file warning was printed. -/
def load_theme (store : PyString → Option Theme) (theme_name : PyString) : Theme × Bool :=
  match store (theme_file theme_name) with
  | none => (default_theme, true)
  | some t => (t, false)

/-- The slug derivation of MapPosterApp.save_theme:
new_name.lower().replace(' ', '_') followed by keeping only alphanumeric
characters and underscores. -/
def slugify (name : PyString) : PyString :=
  ((name.map Char.toLower).map (fun c => if c = ' ' then '_' else c)).filter
    (fun c => c.isAlphanum || c = '_')

/-- The observable outcome of one save_theme invocation. -/
inductive SaveOutcome where
  | cancelled
  | invalidName
  | notOverwritten
  | writeFailed
  | saved (slug : PyString)
deriving DecidableEq

/-- MapPosterApp.save_theme.  newName is the dialog result (none models a
cancelled dialog), confirmOverwrite the answer of the overwrite
confirmation dialog, writeOk whether the file write succeeds.  Returns
the outcome together with the updated theme directory. -/
def save_theme (newName : Option PyString) (confirmOverwrite : Bool) (writeOk : Bool)
    (theme : Theme) (store : PyString → Option Theme) :
    SaveOutcome × (PyString → Option Theme) :=
  match newName with
  | none => (SaveOutcome.cancelled, store)
  | some nm =>
    if nm = [] then (SaveOutcome.cancelled, store)
    else
      let slug := slugify nm
      if slug = [] then (SaveOutcome.invalidName, store)
      else if (store (theme_file slug)).isSome && !confirmOverwrite then
        (SaveOutcome.notOverwritten, store)
      else if writeOk then
        (SaveOutcome.saved slug,
         fun k => if k = theme_file slug then some (themeSet theme ("name".toList) nm) else store k)
      else (SaveOutcome.writeFailed, store)

/- ------------------------------------------------------------------
Geo cache: get_map_data
------------------------------------------------------------------- -/

/-- The cached value: the (G, water, parks) triple.  The graph and the
feature collections are opaque to this development, so they are
represented by identifiers; water and parks are optional because the
source stores None for a failed layer fetch. -/
structure MapData where
  g : Nat
  water : Option Nat
  parks : Option Nat
deriving DecidableEq

/-- The state of the cache file at one path: missing, present but failing
to unpickle, or present with a stored value. -/
inductive CacheFile where
  | absent
  | corrupt
  | entry (d : MapData)
deriving DecidableEq

/-- The environment of one get_map_data call: the result of each of the
three external fetches (an exception or a value) and whether a cache
write would succeed. -/
structure FetchEnv where
  graphRes : Except Unit Nat
  waterRes : Except Unit Nat
  parksRes : Except Unit Nat
  saveOk : Bool

/-- The observable side effects of one get_map_data call. -/
structure FetchLog where
  fetchAttempted : Bool
  loggedCacheError : Bool
  savedToCache : Option MapData
  loggedSaveError : Bool
deriving DecidableEq

/-- The download-and-persist path of get_map_data (the code after the
cache check).  The street network fetch is unguarded, so its exception
propagates; the water and park fetches are wrapped in try/except and
degrade to None; the cache write is guarded and only logged on failure. -/
def downloadAndCache (env : FetchEnv) (loggedCacheErr : Bool) :
    Except Unit (MapData × FetchLog) :=
  match env.graphRes with
  | Except.error e => Except.error e
  | Except.ok g =>
    let d : MapData := ⟨g, env.waterRes.toOption, env.parksRes.toOption⟩
    if env.saveOk then
      Except.ok (d, ⟨true, loggedCacheErr, some d, false⟩)
    else
      Except.ok (d, ⟨true, loggedCacheErr, none, true⟩)

/-- get_map_data, given the state of the cache file at the computed key. -/
def get_map_data_at (file : CacheFile) (env : FetchEnv) :
    Except Unit (MapData × FetchLog) :=
  match file with
  | CacheFile.entry d => Except.ok (d, ⟨false, false, none, false⟩)
  | CacheFile.absent => downloadAndCache env false
  | CacheFile.corrupt => downloadAndCache env true

/-- The slug normalisation used for the cache key:
s.lower().replace(' ', '_'). -/
def city_slug (s : PyString) : PyString :=
  (s.map Char.toLower).map (fun c => if c = ' ' then '_' else c)

/-- The cache path of get_map_data:
os.path.join(CACHE_DIR, f"{city_slug}_{country_slug}_{dist}.pkl"). -/
def cache_key (city country : PyString) (dist : Int) : PyString :=
  "cache/".toList ++ city_slug city ++ "_".toList ++ city_slug country ++ "_".toList
    ++ (toString dist).toList ++ ".pkl".toList

/-- get_map_data over an explicit cache directory. -/
def get_map_data (store : PyString → CacheFile) (city country : PyString) (dist : Int)
    (env : FetchEnv) : Except Unit (MapData × FetchLog) :=
  get_map_data_at (store (cache_key city country dist)) env

/-- Overrides the cache directory at one path. -/
def cache_override (store : PyString → CacheFile) (key : PyString) (file : CacheFile) :
    PyString → CacheFile :=
  fun k => if k = key then file else store k

/- ------------------------------------------------------------------
Coordinate formatting in create_poster
------------------------------------------------------------------- -/

/-- Zero-pads the decimal representation of n to four digits. -/
def pad4 (n : Nat) : PyString :=
  List.replicate (4 - (toString n).toList.length) '0' ++ (toString n).toList

/-- Python f-string formatting x:.4f for a coordinate given in exact
ten-thousandths of a degree (n represents the value n / 10000, which
needs no rounding at four decimals). -/
def format4 (n : Int) : PyString :=
  let m := n.natAbs
  let digits := (toString (m / 10000)).toList ++ ".".toList ++ pad4 (m % 10000)
  if n < 0 then '-' :: digits else digits

/-- The coordinate line of create_poster, for lat and lon in
ten-thousandths of a degree.  Mirrors the source: the N/E or S/E base
string (with abs applied to the latitude only), then
coords.replace("E", "W") when the longitude is negative; for the
single-character pattern "E" that replace is exactly a character map. -/
def format_coords (lat lon : Int) : PyString :=
  let base :=
    if 0 ≤ lat then
      format4 lat ++ "° N / ".toList ++ format4 lon ++ "° E".toList
    else
      format4 (Int.natAbs lat) ++ "° S / ".toList ++ format4 lon ++ "° E".toList
  if lon < 0 then base.map (fun c => if c = 'E' then 'W' else c) else base

/- ------------------------------------------------------------------
Command-line entry point (the __main__ block)
------------------------------------------------------------------- -/

/-- The parsed argparse namespace. -/
structure CliArgs where
  city : Option PyString
  country : Option PyString
  theme : PyString
  distance : Int
  listThemes : Bool
  gui : Bool
deriving DecidableEq

/-- Python truth-value test `not args.city`: true for an absent value and
for an empty string. -/
def optFalsy : Option PyString → Bool
  | none => true
  | some s => s.isEmpty

/-- Which branch of the __main__ block ran (and what it printed). -/
inductive MainStep where
  | guiMode
  | usageExamples
  | themesListing
  | missingCityCountry
  | unknownTheme (shown : List PyString)
  | pipeline (ok : Bool)
deriving DecidableEq

/-- The branch structure of the __main__ block: the chosen step together
with the process exit code.  argc is len(sys.argv); available the list
returned by get_available_themes; pipelineOk whether the poster pipeline
ran without an exception. -/
def main_flow (argc : Nat) (args : CliArgs) (available : List PyString) (pipelineOk : Bool) :
    MainStep × Nat :=
  if args.gui then (MainStep.guiMode, 0)
  else if argc = 1 then (MainStep.usageExamples, 0)
  else if args.listThemes then (MainStep.themesListing, 0)
  else if optFalsy args.city || optFalsy args.country then (MainStep.missingCityCountry, 1)
  else if args.theme ∉ available then (MainStep.unknownTheme available, 1)
  else if pipelineOk then (MainStep.pipeline true, 0)
  else (MainStep.pipeline false, 1)

/-- The argparse namespace an invocation with no arguments produces:
every flag at its default. -/
def default_cli_args : CliArgs :=
  ⟨none, none, "feature_based".toList, 29000, false, false⟩

/- ------------------------------------------------------------------
Helper lemmas
------------------------------------------------------------------- -/

theorem classify_default_of_not_recognized (s : PyString) (h : s ∉ recognizedHighwayTags) :
    classifyColorStr s = ColorRole.road_default ∧ classifyWidthStr s = 0.4 := by
  simp only [recognizedHighwayTags, List.mem_cons, List.not_mem_nil, or_false, not_or] at h
  obtain ⟨h1, h2, h3, h4, h5, h6, h7, h8, h9, h10, h11, h12, h13⟩ := h
  have c1 : s ∉ ["motorway".toList, "motorway_link".toList] := by
    simp only [List.mem_cons, List.not_mem_nil, or_false, not_or]
    exact ⟨h1, h2⟩
  have c2 : s ∉ ["trunk".toList, "trunk_link".toList, "primary".toList, "primary_link".toList] := by
    simp only [List.mem_cons, List.not_mem_nil, or_false, not_or]
    exact ⟨h3, h4, h5, h6⟩
  have c3 : s ∉ ["secondary".toList, "secondary_link".toList] := by
    simp only [List.mem_cons, List.not_mem_nil, or_false, not_or]
    exact ⟨h7, h8⟩
  have c4 : s ∉ ["tertiary".toList, "tertiary_link".toList] := by
    simp only [List.mem_cons, List.not_mem_nil, or_false, not_or]
    exact ⟨h9, h10⟩
  have c5 : s ∉ ["residential".toList, "living_street".toList, "unclassified".toList] := by
    simp only [List.mem_cons, List.not_mem_nil, or_false, not_or]
    exact ⟨h11, h12, h13⟩
  constructor
  · unfold classifyColorStr
    rw [if_neg c1, if_neg c2, if_neg c3, if_neg c4, if_neg c5]
  · unfold classifyWidthStr
    rw [if_neg c1, if_neg c2, if_neg c3, if_neg c4]

theorem themeLookup_themeSet_self (t : Theme) (k v : PyString) :
    themeLookup (themeSet t k v) k = some v := by
  induction t with
  | nil => simp [themeSet, themeLookup]
  | cons hd tl ih =>
    obtain ⟨k0, v0⟩ := hd
    by_cases h : k0 = k
    · simp [themeSet, themeLookup, h]
    · simp [themeSet, themeLookup, h, ih]

theorem gradient_alpha_top_eq (i : Fin 256) :
    gradient_alpha FadeLoc.top i = ((i : ℕ) : ℚ) / 255 := by
  unfold gradient_alpha linspace256
  ring

theorem gradient_alpha_bottom_eq (i : Fin 256) :
    gradient_alpha FadeLoc.bottom i = 1 - ((i : ℕ) : ℚ) / 255 := by
  unfold gradient_alpha linspace256
  ring

/- ------------------------------------------------------------------
Claim theorems
------------------------------------------------------------------- -/

/-- Claim C2: the road classification used for colors and widths is a
total function over all highway-tag inputs (string, non-empty list with
only the first element consulted, empty list treated as unclassified),
with the motorway family on the highest tier, then trunk/primary, then
secondary, then tertiary, then residential/living_street/unclassified,
and every other tag on the default tier.  Totality and absence of
exceptions hold by construction: edgeColor and edgeWidth are total Lean
functions covering every input shape. -/
theorem classify_total_hierarchy :
    (∀ s ∈ ["motorway".toList, "motorway_link".toList],
      edgeColor (some (TagValue.str s)) = ColorRole.road_motorway ∧
      edgeWidth (some (TagValue.str s)) = 1.2) ∧
    (∀ s ∈ ["trunk".toList, "trunk_link".toList, "primary".toList, "primary_link".toList],
      edgeColor (some (TagValue.str s)) = ColorRole.road_primary ∧
      edgeWidth (some (TagValue.str s)) = 1.0) ∧
    (∀ s ∈ ["secondary".toList, "secondary_link".toList],
      edgeColor (some (TagValue.str s)) = ColorRole.road_secondary ∧
      edgeWidth (some (TagValue.str s)) = 0.8) ∧
    (∀ s ∈ ["tertiary".toList, "tertiary_link".toList],
      edgeColor (some (TagValue.str s)) = ColorRole.road_tertiary ∧
      edgeWidth (some (TagValue.str s)) = 0.6) ∧
    (∀ s ∈ ["residential".toList, "living_street".toList, "unclassified".toList],
      edgeColor (some (TagValue.str s)) = ColorRole.road_residential ∧
      edgeWidth (some (TagValue.str s)) = 0.4) ∧
    (∀ s, s ∉ recognizedHighwayTags →
      edgeColor (some (TagValue.str s)) = ColorRole.road_default ∧
      edgeWidth (some (TagValue.str s)) = 0.4) ∧
    (∀ s rest,
      edgeColor (some (TagValue.strs (s :: rest))) = edgeColor (some (TagValue.str s)) ∧
      edgeWidth (some (TagValue.strs (s :: rest))) = edgeWidth (some (TagValue.str s))) ∧
    (edgeColor (some (TagValue.strs [])) = ColorRole.road_residential ∧
      edgeWidth (some (TagValue.strs [])) = 0.4 ∧
      edgeColor none = ColorRole.road_residential ∧
      edgeWidth none = 0.4) := by
  refine ⟨?_, ?_, ?_, ?_, ?_, ?_, ?_, ?_⟩
  · intro s hs
    fin_cases hs <;> exact ⟨by decide, by rfl⟩
  · intro s hs
    fin_cases hs <;> exact ⟨by decide, by rfl⟩
  · intro s hs
    fin_cases hs <;> exact ⟨by decide, by rfl⟩
  · intro s hs
    fin_cases hs <;> exact ⟨by decide, by rfl⟩
  · intro s hs
    fin_cases hs <;> exact ⟨by decide, by rfl⟩
  · intro s hs
    exact classify_default_of_not_recognized s hs
  · intro s rest
    exact ⟨rfl, rfl⟩
  · exact ⟨by decide, by rfl, by decide, by rfl⟩

/-- Witness for classify_total_hierarchy: the theorem applied at concrete
tags, discharging the membership and non-membership hypotheses. -/
theorem classify_total_hierarchy_witness :
    ("footway".toList ∉ recognizedHighwayTags) ∧
    edgeColor (some (TagValue.str "motorway".toList)) = ColorRole.road_motorway ∧
    edgeColor (some (TagValue.str "footway".toList)) = ColorRole.road_default ∧
    edgeWidth (some (TagValue.str "footway".toList)) = 0.4 :=
  ⟨by decide,
   (classify_total_hierarchy.1 ("motorway".toList) (by decide)).1,
   (classify_total_hierarchy.2.2.2.2.2.1 ("footway".toList) (by decide)).1,
   (classify_total_hierarchy.2.2.2.2.2.1 ("footway".toList) (by decide)).2⟩

/-- Claim C10: the stroke width of residential, living_street and
unclassified segments (and of a segment with no highway tag) equals the
0.4 width of unrecognized tags; the width function takes only the four
values 1.2, 1.0, 0.8, 0.6 above that shared default; and the residential
family and the default family nevertheless receive distinct theme color
roles. -/
theorem residential_width_equals_default :
    edgeWidth (some (TagValue.str "residential".toList)) = 0.4 ∧
    edgeWidth (some (TagValue.str "living_street".toList)) = 0.4 ∧
    edgeWidth (some (TagValue.str "unclassified".toList)) = 0.4 ∧
    edgeWidth none = 0.4 ∧
    (∀ s, s ∉ recognizedHighwayTags → edgeWidth (some (TagValue.str s)) = 0.4) ∧
    (∀ t, edgeWidth t = 1.2 ∨ edgeWidth t = 1.0 ∨ edgeWidth t = 0.8 ∨
      edgeWidth t = 0.6 ∨ edgeWidth t = 0.4) ∧
    edgeColor (some (TagValue.str "residential".toList)) = ColorRole.road_residential ∧
    edgeColor (some (TagValue.str "living_street".toList)) = ColorRole.road_residential ∧
    edgeColor (some (TagValue.str "unclassified".toList)) = ColorRole.road_residential ∧
    edgeColor none = ColorRole.road_residential ∧
    (∀ s, s ∉ recognizedHighwayTags →
      edgeColor (some (TagValue.str s)) = ColorRole.road_default) ∧
    ColorRole.road_residential ≠ ColorRole.road_default := by
  refine ⟨by rfl, by rfl, by rfl, by rfl, ?_, ?_, by decide, by decide, by decide, by decide,
    ?_, by decide⟩
  · intro s hs
    exact (classify_default_of_not_recognized s hs).2
  · intro t
    unfold edgeWidth classifyWidthStr
    split_ifs <;> tauto
  · intro s hs
    exact (classify_default_of_not_recognized s hs).1

/-- Witness for residential_width_equals_default: applied at the concrete
unrecognized tag footway. -/
theorem residential_width_equals_default_witness :
    ("footway".toList ∉ recognizedHighwayTags) ∧
    edgeWidth (some (TagValue.str "footway".toList)) = 0.4 ∧
    edgeColor (some (TagValue.str "footway".toList)) = ColorRole.road_default :=
  ⟨by decide,
   residential_width_equals_default.2.2.2.2.1 ("footway".toList) (by decide),
   residential_width_equals_default.2.2.2.2.2.2.2.2.2.2.1 ("footway".toList) (by decide)⟩

/-- Claim C4: for every base color and each anchor edge, the gradient
overlay alpha across the 256 steps is linear (constant step 1/255) and
monotonic -- increasing toward the top anchor, decreasing away from the
bottom anchor -- with endpoints exactly 0 and 1; RGB is held constant at
the base color; and the overlay spans one quarter of the vertical extent
anchored at the chosen edge. -/
theorem gradient_fade_profile (r g b ylo yhi : ℚ) :
    (∀ i j : Fin 256, i < j →
      gradient_alpha FadeLoc.top i < gradient_alpha FadeLoc.top j ∧
      gradient_alpha FadeLoc.bottom j < gradient_alpha FadeLoc.bottom i) ∧
    (∀ i j : Fin 256, (j : ℕ) = (i : ℕ) + 1 →
      gradient_alpha FadeLoc.top j - gradient_alpha FadeLoc.top i = 1 / 255 ∧
      gradient_alpha FadeLoc.bottom j - gradient_alpha FadeLoc.bottom i = -(1 / 255)) ∧
    gradient_alpha FadeLoc.top (⟨0, by norm_num⟩ : Fin 256) = 0 ∧
    gradient_alpha FadeLoc.top (⟨255, by norm_num⟩ : Fin 256) = 1 ∧
    gradient_alpha FadeLoc.bottom (⟨0, by norm_num⟩ : Fin 256) = 1 ∧
    gradient_alpha FadeLoc.bottom (⟨255, by norm_num⟩ : Fin 256) = 0 ∧
    (∀ loc i, (create_gradient_fade (r, g, b) loc ylo yhi).1 i = (r, g, b, gradient_alpha loc i)) ∧
    (create_gradient_fade (r, g, b) FadeLoc.bottom ylo yhi).2.1 = ylo ∧
    (create_gradient_fade (r, g, b) FadeLoc.top ylo yhi).2.2 = yhi ∧
    (∀ loc, (create_gradient_fade (r, g, b) loc ylo yhi).2.2 -
      (create_gradient_fade (r, g, b) loc ylo yhi).2.1 = (yhi - ylo) / 4) := by
  refine ⟨?_, ?_, ?_, ?_, ?_, ?_, ?_, ?_, ?_, ?_⟩
  · intro i j hij
    have hq : ((i : ℕ) : ℚ) < ((j : ℕ) : ℚ) := by exact_mod_cast hij
    rw [gradient_alpha_top_eq, gradient_alpha_top_eq, gradient_alpha_bottom_eq,
      gradient_alpha_bottom_eq]
    constructor <;> linarith
  · intro i j hij
    have hq : ((j : ℕ) : ℚ) = ((i : ℕ) : ℚ) + 1 := by exact_mod_cast hij
    rw [gradient_alpha_top_eq, gradient_alpha_top_eq, gradient_alpha_bottom_eq,
      gradient_alpha_bottom_eq]
    constructor <;> (rw [hq]; ring)
  · rw [gradient_alpha_top_eq]
    norm_num
  · rw [gradient_alpha_top_eq]
    norm_num
  · rw [gradient_alpha_bottom_eq]
    norm_num
  · rw [gradient_alpha_bottom_eq]
    norm_num
  · intro loc i
    rfl
  · unfold create_gradient_fade fade_extent
    ring
  · unfold create_gradient_fade fade_extent
    ring
  · intro loc
    cases loc <;> (unfold create_gradient_fade fade_extent; norm_num; try ring)

/-- Witness for gradient_fade_profile: the monotonicity and step
hypotheses discharged at the concrete indices 0 and 1 for the all-white
base color on the unit vertical extent. -/
theorem gradient_fade_profile_witness :
    gradient_alpha FadeLoc.top (⟨0, by norm_num⟩ : Fin 256) <
      gradient_alpha FadeLoc.top (⟨1, by norm_num⟩ : Fin 256) ∧
    gradient_alpha FadeLoc.bottom (⟨1, by norm_num⟩ : Fin 256) <
      gradient_alpha FadeLoc.bottom (⟨0, by norm_num⟩ : Fin 256) ∧
    gradient_alpha FadeLoc.top (⟨1, by norm_num⟩ : Fin 256) -
      gradient_alpha FadeLoc.top (⟨0, by norm_num⟩ : Fin 256) = 1 / 255 :=
  ⟨((gradient_fade_profile 1 1 1 0 1).1 _ _ (by decide)).1,
   ((gradient_fade_profile 1 1 1 0 1).1 _ _ (by decide)).2,
   ((gradient_fade_profile 1 1 1 0 1).2.1 _ _ (by decide)).1⟩

/-- Claim C1: in get_map_data, a corrupt cache file is logged and then
handled exactly as a miss (same success or failure, same returned data,
never a propagated deserialization error); on a miss a water or parks
fetch failure yields None for that layer without aborting; a street
network fetch failure propagates to the caller. -/
theorem get_map_data_failure_policy (store : PyString → CacheFile) (city country : PyString)
    (dist : Int) (gr w p : Except Unit Nat) (g : Nat) (b : Bool) :
    Except.map Prod.fst
        (get_map_data (cache_override store (cache_key city country dist) CacheFile.corrupt)
          city country dist ⟨gr, w, p, b⟩) =
      Except.map Prod.fst
        (get_map_data (cache_override store (cache_key city country dist) CacheFile.absent)
          city country dist ⟨gr, w, p, b⟩) ∧
    Except.map (fun r => r.2.loggedCacheError)
        (get_map_data (cache_override store (cache_key city country dist) CacheFile.corrupt)
          city country dist ⟨Except.ok g, w, p, b⟩) = Except.ok true ∧
    Except.map (fun r => r.1.water)
        (get_map_data (cache_override store (cache_key city country dist) CacheFile.absent)
          city country dist ⟨Except.ok g, Except.error (), p, b⟩) = Except.ok none ∧
    Except.map (fun r => r.1.parks)
        (get_map_data (cache_override store (cache_key city country dist) CacheFile.absent)
          city country dist ⟨Except.ok g, w, Except.error (), b⟩) = Except.ok none ∧
    Except.map (fun r => r.1.water)
        (get_map_data (cache_override store (cache_key city country dist) CacheFile.corrupt)
          city country dist ⟨Except.ok g, Except.error (), p, b⟩) = Except.ok none ∧
    Except.map (fun r => r.1.parks)
        (get_map_data (cache_override store (cache_key city country dist) CacheFile.corrupt)
          city country dist ⟨Except.ok g, w, Except.error (), b⟩) = Except.ok none ∧
    get_map_data (cache_override store (cache_key city country dist) CacheFile.absent)
      city country dist ⟨Except.error (), w, p, b⟩ = Except.error () ∧
    get_map_data (cache_override store (cache_key city country dist) CacheFile.corrupt)
      city country dist ⟨Except.error (), w, p, b⟩ = Except.error () := by
  refine ⟨?_, ?_, ?_, ?_, ?_, ?_, ?_, ?_⟩ <;>
    cases gr <;> cases w <;> cases p <;> cases b <;>
      simp [get_map_data, get_map_data_at, cache_override, downloadAndCache,
        Except.map, Except.toOption]

/-- Claim C9: after a successful fetch sequence, get_map_data attempts to
persist the triple; a cache-write failure is logged and the call still
returns the in-memory triple unchanged, for both the plain-miss and the
corrupt-cache path. -/
theorem cache_persist_failure_nonfatal (store : PyString → CacheFile) (city country : PyString)
    (dist : Int) (g : Nat) (w p : Except Unit Nat) :
    get_map_data (cache_override store (cache_key city country dist) CacheFile.absent)
      city country dist ⟨Except.ok g, w, p, false⟩ =
      Except.ok (⟨g, w.toOption, p.toOption⟩, ⟨true, false, none, true⟩) ∧
    get_map_data (cache_override store (cache_key city country dist) CacheFile.absent)
      city country dist ⟨Except.ok g, w, p, true⟩ =
      Except.ok (⟨g, w.toOption, p.toOption⟩, ⟨true, false, some ⟨g, w.toOption, p.toOption⟩, false⟩) ∧
    get_map_data (cache_override store (cache_key city country dist) CacheFile.corrupt)
      city country dist ⟨Except.ok g, w, p, false⟩ =
      Except.ok (⟨g, w.toOption, p.toOption⟩, ⟨true, true, none, true⟩) ∧
    get_map_data (cache_override store (cache_key city country dist) CacheFile.corrupt)
      city country dist ⟨Except.ok g, w, p, true⟩ =
      Except.ok (⟨g, w.toOption, p.toOption⟩, ⟨true, true, some ⟨g, w.toOption, p.toOption⟩, false⟩) := by
  refine ⟨?_, ?_, ?_, ?_⟩ <;>
    simp [get_map_data, get_map_data_at, cache_override, downloadAndCache,
      Except.map, Except.toOption]

/-- Claim C3: the cache key is the lowercased, space-to-underscore city
and country slugs plus the radius; a stored entry at that key is returned
immediately with no fetch; and a full write-then-read round trip on the
same (city, country, radius) returns exactly the data that was fetched
and written, again with no fetch on the second call. -/
theorem cache_round_trip (store : PyString → CacheFile) (city country : PyString) (dist : Int)
    (d : MapData) (env env2 : FetchEnv) (g : Nat) (w p : Except Unit Nat) :
    get_map_data (cache_override store (cache_key city country dist) (CacheFile.entry d))
      city country dist env = Except.ok (d, ⟨false, false, none, false⟩) ∧
    get_map_data (cache_override store (cache_key city country dist) CacheFile.absent)
      city country dist ⟨Except.ok g, w, p, true⟩ =
      Except.ok (⟨g, w.toOption, p.toOption⟩,
        ⟨true, false, some ⟨g, w.toOption, p.toOption⟩, false⟩) ∧
    get_map_data
      (cache_override
        (cache_override store (cache_key city country dist) CacheFile.absent)
        (cache_key city country dist) (CacheFile.entry ⟨g, w.toOption, p.toOption⟩))
      city country dist env2 =
      Except.ok (⟨g, w.toOption, p.toOption⟩, ⟨false, false, none, false⟩) ∧
    cache_key ("New York".toList) ("USA".toList) 8000 = "cache/new_york_usa_8000.pkl".toList ∧
    cache_key ("New York".toList) ("USA".toList) 8000 =
      cache_key ("new york".toList) ("usa".toList) 8000 ∧
    cache_key ("New York".toList) ("USA".toList) 8000 =
      cache_key ("new_york".toList) ("usa".toList) 8000 := by
  refine ⟨?_, ?_, ?_, by decide, by decide, by decide⟩ <;>
    simp [get_map_data, get_map_data_at, cache_override, downloadAndCache,
      Except.map, Except.toOption]

/-- Counterexample to claim C5 as stated: for the entered name "" the
derived identifier is empty, yet save_theme returns silently (the code
treats a falsy dialog result as cancellation) instead of failing with the
invalid-name error; nothing is written either way. -/
theorem save_theme_empty_name_counterexample :
    slugify [] = [] ∧
    (save_theme (some []) true true default_theme (fun _ => none)).1 = SaveOutcome.cancelled ∧
    (save_theme (some []) true true default_theme (fun _ => none)).2 = (fun _ => none) ∧
    SaveOutcome.cancelled ≠ SaveOutcome.invalidName :=
  ⟨rfl, rfl, rfl, by decide⟩

/-- Claim C5 (amended): save_theme derives the identifier by lowercasing,
space-to-underscore and stripping other non-alphanumerics ("My Cool
Theme!!" gives "my_cool_theme"); an empty entered name is treated as
dialog cancellation and writes nothing without an error; a nonempty name
whose derived identifier is empty fails with the invalid-name error and
writes nothing; an existing identifier requires caller confirmation
before overwrite; a completed save stores the display name under the
name key, so loading by the derived identifier returns a theme whose
name equals the original display string. -/
theorem save_theme_slug_contract (nm : PyString) (theme : Theme)
    (store : PyString → Option Theme) :
    slugify ("My Cool Theme!!".toList) = "my_cool_theme".toList ∧
    (∀ confirm writeOk,
      save_theme none confirm writeOk theme store = (SaveOutcome.cancelled, store)) ∧
    (∀ confirm writeOk,
      save_theme (some []) confirm writeOk theme store = (SaveOutcome.cancelled, store)) ∧
    (nm ≠ [] → slugify nm = [] → ∀ confirm writeOk,
      save_theme (some nm) confirm writeOk theme store = (SaveOutcome.invalidName, store)) ∧
    (nm ≠ [] → slugify nm ≠ [] → (store (theme_file (slugify nm))).isSome = true →
      ∀ writeOk,
        save_theme (some nm) false writeOk theme store = (SaveOutcome.notOverwritten, store)) ∧
    (nm ≠ [] → slugify nm ≠ [] →
      (save_theme (some nm) true true theme store).1 = SaveOutcome.saved (slugify nm) ∧
      themeLookup (load_theme (save_theme (some nm) true true theme store).2 (slugify nm)).1
        ("name".toList) = some nm) := by
  refine ⟨by decide, fun confirm writeOk => rfl, fun confirm writeOk => rfl, ?_, ?_, ?_⟩
  · intro hnm hslug confirm writeOk
    simp [save_theme, hnm, hslug]
  · intro hnm hslug hexists writeOk
    simp [save_theme, hnm, hslug, hexists]
  · intro hnm hslug
    constructor
    · simp [save_theme, hnm, hslug]
    · simp [save_theme, load_theme, hnm, hslug, themeLookup_themeSet_self]

/-- Witness for save_theme_slug_contract: the hypothesis-bearing parts
applied at the concrete names "!!" (nonempty, empty identifier) and
"My Cool Theme!!" (overwrite guard and save/load round trip). -/
theorem save_theme_slug_contract_witness :
    ("!!".toList ≠ ([] : PyString)) ∧
    slugify ("!!".toList) = [] ∧
    save_theme (some ("!!".toList)) true true default_theme (fun _ => none)
      = (SaveOutcome.invalidName, fun _ => none) ∧
    save_theme (some ("My Cool Theme!!".toList)) false true default_theme (fun _ => some [])
      = (SaveOutcome.notOverwritten, fun _ => some []) ∧
    (save_theme (some ("My Cool Theme!!".toList)) true true default_theme (fun _ => none)).1
      = SaveOutcome.saved (slugify ("My Cool Theme!!".toList)) ∧
    themeLookup
      (load_theme
        (save_theme (some ("My Cool Theme!!".toList)) true true default_theme (fun _ => none)).2
        (slugify ("My Cool Theme!!".toList))).1 ("name".toList)
      = some ("My Cool Theme!!".toList) :=
  ⟨by decide, by decide,
   (save_theme_slug_contract ("!!".toList) default_theme (fun _ => none)).2.2.2.1
     (by decide) (by decide) true true,
   (save_theme_slug_contract ("My Cool Theme!!".toList) default_theme
     (fun _ => some [])).2.2.2.2.1 (by decide) (by decide) rfl true,
   ((save_theme_slug_contract ("My Cool Theme!!".toList) default_theme
     (fun _ => none)).2.2.2.2.2 (by decide) (by decide)).1,
   ((save_theme_slug_contract ("My Cool Theme!!".toList) default_theme
     (fun _ => none)).2.2.2.2.2 (by decide) (by decide)).2⟩

/-- Claim C6, evaluated at the failing input lat = 40.0, lon = -3.5
(given in ten-thousandths of a degree): the source keeps the minus sign
of a negative longitude next to the substituted W, so the displayed
value is not the absolute degree value the claim requires.  The latitude
branch, by contrast, does apply abs, as the third conjunct shows. -/
theorem coords_longitude_abs_divergence :
    format_coords 400000 (-35000) = "40.0000° N / -3.5000° W".toList ∧
    format_coords 400000 (-35000) ≠ "40.0000° N / 3.5000° W".toList ∧
    format_coords (-128320) 1254100 = "12.8320° S / 125.4100° E".toList ∧
    format_coords (-128320) (-1254100) = "12.8320° S / -125.4100° W".toList := by
  refine ⟨by decide, by decide, by decide, by decide⟩

/-- Claim C7: load_theme returns the built-in default theme (which binds
every required color role) together with a warning when the backing file
is missing, and returns the parsed theme without a warning when the file
exists. -/
theorem load_theme_missing_fallback (store : PyString → Option Theme) (name : PyString) :
    (store (theme_file name) = none →
      load_theme store name = (default_theme, true) ∧
      ∀ role ∈ requiredColorRoles, (themeLookup default_theme role).isSome = true) ∧
    (∀ t, store (theme_file name) = some t → load_theme store name = (t, false)) := by
  constructor
  · intro hmiss
    refine ⟨?_, by decide⟩
    unfold load_theme
    rw [hmiss]
  · intro t hsome
    unfold load_theme
    rw [hsome]

/-- Witness for load_theme_missing_fallback: applied to an empty theme
directory (missing file) and to a directory holding one parsed theme. -/
theorem load_theme_missing_fallback_witness :
    load_theme (fun _ => none) ("noir".toList) = (default_theme, true) ∧
    (themeLookup default_theme ("bg".toList)).isSome = true ∧
    load_theme (fun _ => some default_theme) ("noir".toList) = (default_theme, false) :=
  ⟨((load_theme_missing_fallback (fun _ => none) ("noir".toList)).1 rfl).1,
   ((load_theme_missing_fallback (fun _ => none) ("noir".toList)).1 rfl).2
     ("bg".toList) (by decide),
   (load_theme_missing_fallback (fun _ => some default_theme) ("noir".toList)).2
     default_theme rfl⟩

/-- Claim C8: the command-line entry point prints the usage examples and
exits zero when invoked with no arguments at all; exits one with the
missing-argument diagnostic when city or country is absent or empty; and
exits one, printing the list of available themes, when the requested
theme is not among the discoverable themes. -/
theorem cli_exit_policy (argc : Nat) (args : CliArgs) (available : List PyString)
    (pipelineOk : Bool) :
    main_flow 1 default_cli_args available pipelineOk = (MainStep.usageExamples, 0) ∧
    (args.gui = false → args.listThemes = false → argc ≠ 1 →
      (optFalsy args.city = true ∨ optFalsy args.country = true) →
      main_flow argc args available pipelineOk = (MainStep.missingCityCountry, 1)) ∧
    (args.gui = false → args.listThemes = false → argc ≠ 1 →
      optFalsy args.city = false → optFalsy args.country = false →
      args.theme ∉ available →
      main_flow argc args available pipelineOk = (MainStep.unknownTheme available, 1)) := by
  refine ⟨rfl, ?_, ?_⟩
  · intro hgui hlist hargc hmissing
    rcases hmissing with h | h <;> simp [main_flow, hgui, hlist, hargc, h]
  · intro hgui hlist hargc hcity hcountry htheme
    simp [main_flow, hgui, hlist, hargc, hcity, hcountry, htheme]

/-- Witness for cli_exit_policy: the diagnostics branches applied to a
concrete invocation missing the country and to one naming an unknown
theme against an empty theme directory. -/
theorem cli_exit_policy_witness :
    main_flow 1 default_cli_args [] true = (MainStep.usageExamples, 0) ∧
    main_flow 3 ⟨some ("Paris".toList), none, "noir".toList, 15000, false, false⟩ [] true
      = (MainStep.missingCityCountry, 1) ∧
    main_flow 5 ⟨some ("Paris".toList), some ("France".toList), "noir".toList, 15000,
        false, false⟩ [] true
      = (MainStep.unknownTheme [], 1) :=
  ⟨(cli_exit_policy 1 default_cli_args [] true).1,
   (cli_exit_policy 3 ⟨some ("Paris".toList), none, "noir".toList, 15000, false, false⟩
     [] true).2.1 rfl rfl (by decide) (Or.inr rfl),
   (cli_exit_policy 5 ⟨some ("Paris".toList), some ("France".toList), "noir".toList, 15000,
     false, false⟩ [] true).2.2 rfl rfl (by decide) rfl rfl (by decide)⟩
